import Mathlib

/-!
Verification of the BenchSync consultant bench-management backend, centred on
the `TrainingAgent` skill-gap / training-recommendation scoring pipeline
(`src/agents/training_agent/agent.py`), the MCP JSON-RPC dispatch shims
(`src/mcp_servers/...`), and the consultant-creation endpoint
(`src/simple_backend.py`).

Python values that matter to the claims are embedded shallowly:
* numbers appearing in scores, costs and ratings become `ℚ` (the Python
  arithmetic here is exact on one- and two-decimal literals);
* Python `round` (banker's rounding) is modelled exactly;
* dynamically-typed values on which methods such as `.lower()` are called
  become `PyVal`, and code that can raise returns `Except String`;
* `datetime.now()` is passed in explicitly as a clock reading, so the
  timestamp dependence of results is visible in the model.
-/

set_option linter.unusedVariables false

namespace BenchSync

/-- A dynamically typed Python value, as far as the agent's inputs need:
strings, numbers and `None`. Calling a string method on a non-string raises. -/
inductive PyVal where
  | str (s : String)
  | int (n : Int)
  | pynone
deriving DecidableEq, Repr

/-- Accessing a value as a string (e.g. calling `.lower()` on it):
succeeds on strings, raises `AttributeError` otherwise, as Python does. -/
def pyAsStr : PyVal → Except String String
  | .str s => .ok s
  | .int _ => .error "AttributeError: 'int' object has no attribute 'lower'"
  | .pynone => .error "AttributeError: 'NoneType' object has no attribute 'lower'"

/-- `needle` occurs as a contiguous substring of `hay` (character lists). -/
def charsContain : List Char → List Char → Bool
  | [], needle => needle.isEmpty
  | c :: t, needle => needle.isPrefixOf (c :: t) || charsContain t needle

/-- Python's `needle in hay` on strings: substring containment. -/
def pyIn (needle hay : String) : Bool := charsContain hay.toList needle.toList

/-- Python's `str.lower()` (ASCII case folding, character by character;
`String.toLower` itself is not kernel-reducible, so the model maps over the
character list directly). -/
def pyLowerStr (s : String) : String := ⟨s.data.map Char.toLower⟩

/-- Python's `str.strip()`: drop leading and trailing whitespace. -/
def pyStrip (s : String) : String :=
  ⟨((s.data.dropWhile Char.isWhitespace).reverse.dropWhile Char.isWhitespace).reverse⟩

/-- Python's `round(q)`: round half to even. -/
def pyRoundInt (q : ℚ) : ℤ :=
  let f := ⌊q⌋
  let r := q - f
  if r < 1/2 then f
  else if 1/2 < r then f + 1
  else if f % 2 = 0 then f else f + 1

/-- Python's `round(q, 1)`: round to one decimal place, half to even. -/
def round1 (q : ℚ) : ℚ := (pyRoundInt (10 * q) : ℚ) / 10

/-- One training program of the static catalog
(`TrainingAgent._initialize_training_catalog`). `cert_name` is optional in
the source dictionaries and is read with `.get("cert_name", "")`. -/
structure Program where
  id : String
  title : String
  provider : String
  duration_hours : ℕ
  difficulty : String
  cost : ℚ
  certification : Bool
  cert_name : Option String := Option.none
  skills : List String
  prerequisites : List String
  market_demand : ℚ
  career_impact : String
  url : String
  rating : ℚ
deriving DecidableEq, Repr

/-- The static in-memory training catalog, category by category, exactly as
built by `TrainingAgent._initialize_training_catalog`. -/
def _initialize_training_catalog : List (String × List Program) :=
  [("cloud_computing",
    [{ id := "aws_solutions_architect",
       title := "AWS Solutions Architect Associate",
       provider := "Amazon Web Services",
       duration_hours := 60, difficulty := "Intermediate", cost := 150,
       certification := true,
       cert_name := some "AWS Certified Solutions Architect - Associate",
       skills := ["AWS", "Cloud Architecture", "EC2", "S3", "VPC", "IAM"],
       prerequisites := ["Basic Cloud Knowledge", "Networking Fundamentals"],
       market_demand := 95, career_impact := "High",
       url := "https://aws.amazon.com/certification/certified-solutions-architect-associate/",
       rating := 4.8 },
     { id := "azure_fundamentals",
       title := "Microsoft Azure Fundamentals",
       provider := "Microsoft",
       duration_hours := 40, difficulty := "Beginner", cost := 99,
       certification := true,
       cert_name := some "Microsoft Certified: Azure Fundamentals",
       skills := ["Azure", "Cloud Concepts", "Azure Services", "Security"],
       prerequisites := [],
       market_demand := 90, career_impact := "High",
       url := "https://docs.microsoft.com/en-us/learn/certifications/azure-fundamentals/",
       rating := 4.7 },
     { id := "kubernetes_fundamentals",
       title := "Kubernetes Fundamentals",
       provider := "Linux Foundation",
       duration_hours := 50, difficulty := "Intermediate", cost := 199,
       certification := true,
       cert_name := some "Certified Kubernetes Administrator (CKA)",
       skills := ["Kubernetes", "Container Orchestration", "Docker", "DevOps"],
       prerequisites := ["Docker Basics", "Linux Commands"],
       market_demand := 88, career_impact := "High",
       url := "https://training.linuxfoundation.org/certification/certified-kubernetes-administrator-cka/",
       rating := 4.6 }]),
   ("programming",
    [{ id := "nodejs_complete",
       title := "Complete Node.js Developer Course",
       provider := "Udemy",
       duration_hours := 35, difficulty := "Intermediate", cost := 89.99,
       certification := false,
       skills := ["Node.js", "Express.js", "MongoDB", "RESTful APIs"],
       prerequisites := ["JavaScript Basics"],
       market_demand := 85, career_impact := "High",
       url := "https://www.udemy.com/course/the-complete-nodejs-developer-course-2/",
       rating := 4.7 },
     { id := "react_complete",
       title := "Complete React Developer Course",
       provider := "Udemy",
       duration_hours := 40, difficulty := "Intermediate", cost := 94.99,
       certification := false,
       skills := ["React", "Redux", "React Hooks", "Context API"],
       prerequisites := ["JavaScript ES6", "HTML/CSS"],
       market_demand := 92, career_impact := "High",
       url := "https://www.udemy.com/course/react-the-complete-guide-incl-redux/",
       rating := 4.8 },
     { id := "python_data_science",
       title := "Python for Data Science and Machine Learning",
       provider := "Coursera",
       duration_hours := 60, difficulty := "Intermediate", cost := 49,
       certification := true,
       cert_name := some "Python for Data Science Specialization",
       skills := ["Python", "Pandas", "NumPy", "Matplotlib", "Scikit-learn"],
       prerequisites := ["Python Basics"],
       market_demand := 89, career_impact := "High",
       url := "https://www.coursera.org/specializations/python-data-science",
       rating := 4.6 }]),
   ("database",
    [{ id := "postgresql_mastery",
       title := "PostgreSQL Database Administration",
       provider := "PostgreSQL Global Development Group",
       duration_hours := 45, difficulty := "Intermediate", cost := 0,
       certification := false,
       skills := ["PostgreSQL", "Database Design", "SQL Optimization", "Backup & Recovery"],
       prerequisites := ["SQL Basics"],
       market_demand := 78, career_impact := "Medium",
       url := "https://www.postgresql.org/docs/current/tutorial.html",
       rating := 4.5 },
     { id := "mongodb_developer",
       title := "MongoDB Developer Certification",
       provider := "MongoDB University",
       duration_hours := 30, difficulty := "Intermediate", cost := 150,
       certification := true,
       cert_name := some "MongoDB Certified Developer Associate",
       skills := ["MongoDB", "NoSQL", "Aggregation Pipeline", "Indexing"],
       prerequisites := ["Database Fundamentals"],
       market_demand := 82, career_impact := "Medium",
       url := "https://university.mongodb.com/certification",
       rating := 4.4 }]),
   ("ai_ml",
    [{ id := "machine_learning_basics",
       title := "Machine Learning Fundamentals",
       provider := "Stanford Online",
       duration_hours := 55, difficulty := "Intermediate", cost := 0,
       certification := true,
       cert_name := some "Machine Learning Certificate",
       skills := ["Machine Learning", "Python", "TensorFlow", "Data Analysis"],
       prerequisites := ["Python", "Statistics", "Linear Algebra"],
       market_demand := 94, career_impact := "High",
       url := "https://www.coursera.org/learn/machine-learning",
       rating := 4.9 },
     { id := "ai_for_everyone",
       title := "AI for Everyone",
       provider := "deeplearning.ai",
       duration_hours := 25, difficulty := "Beginner", cost := 49,
       certification := true,
       cert_name := some "AI for Everyone Certificate",
       skills := ["AI Concepts", "Machine Learning Basics", "AI Strategy"],
       prerequisites := [],
       market_demand := 91, career_impact := "Medium",
       url := "https://www.coursera.org/learn/ai-for-everyone",
       rating := 4.7 }])]

/-- A catalog in general: category name to list of programs, in insertion
order (`self.training_catalog` is a Python dict of lists). -/
abbrev Catalog := List (String × List Program)

/-- All programs of a catalog, in the order `for category, programs in
self.training_catalog.items(): for program in programs` visits them. -/
def catalogPrograms (catalog : Catalog) : List Program :=
  (catalog.map (fun p => p.2)).flatten

/-- `difficulty_map = {"beginner": 1, "intermediate": 2, "advanced": 3}`,
read with `.get(..., 2)` on the lowered difficulty string. -/
def difficultyMapGet (d : String) : ℤ :=
  if d = "beginner" then 1 else if d = "intermediate" then 2
  else if d = "advanced" then 3 else 2

/-- `exp_level_map = {"junior": 1, "intermediate": 2, "senior": 3}`,
read with `.get(..., 2)` on the lowered experience-level string. -/
def expLevelMapGet (e : String) : ℤ :=
  if e = "junior" then 1 else if e = "intermediate" then 2
  else if e = "senior" then 3 else 2

/-- `TrainingAgent._calculate_recommendation_score`, translated step by step
(the running `score` accumulator becomes shadowed `let`s). `current_skills`
is a parameter of the source function that its body never reads. -/
def _calculate_recommendation_score (training : Program)
    (current_skills : List PyVal) (experience_level : String) : ℚ :=
  let score : ℚ := 0
  let score := score + training.market_demand / 100 * 30
  let score := score + training.rating / 5 * 20
  let training_level := difficultyMapGet (pyLowerStr training.difficulty)
  let consultant_level := expLevelMapGet (pyLowerStr experience_level)
  let level_diff := (training_level - consultant_level).natAbs
  let score := score + (if level_diff = 0 then (20 : ℚ)
    else if level_diff = 1 then 15 else 5)
  let score := score + (if (pyLowerStr training.career_impact) = "high" then (15 : ℚ)
    else if (pyLowerStr training.career_impact) = "medium" then 10
    else if (pyLowerStr training.career_impact) = "low" then 5 else 10)
  let score := score + (if training.cost = 0 then (15 : ℚ)
    else if training.cost ≤ 100 then 12
    else if training.cost ≤ 200 then 8 else 3)
  round1 score

/-- Spec-side definition (market demand factor): `(market_demand/100)*30`. -/
def marketDemandFactor (t : Program) : ℚ := t.market_demand / 100 * 30

/-- Spec-side definition (rating factor): `(rating/5)*20`. -/
def ratingFactor (t : Program) : ℚ := t.rating / 5 * 20

/-- Spec-side definition (experience-level match): 20 points if the mapped
training difficulty equals the mapped consultant level, 15 if they differ by
one, 5 otherwise; unrecognized values map to level 2. -/
def experienceMatchFactor (t : Program) (experience_level : String) : ℚ :=
  let tl := difficultyMapGet (pyLowerStr t.difficulty)
  let cl := expLevelMapGet (pyLowerStr experience_level)
  if tl = cl then 20 else if (tl - cl).natAbs = 1 then 15 else 5

/-- Spec-side definition (career impact): 15 for `high`, 10 for `medium` or
unrecognized, 5 for `low`. -/
def careerImpactFactor (t : Program) : ℚ :=
  if (pyLowerStr t.career_impact) = "high" then 15
  else if (pyLowerStr t.career_impact) = "medium" then 10
  else if (pyLowerStr t.career_impact) = "low" then 5 else 10

/-- Spec-side definition (cost efficiency): 15 if cost is 0, 12 if cost is at
most 100, 8 if at most 200, 3 otherwise. -/
def costEfficiencyFactor (t : Program) : ℚ :=
  if t.cost = 0 then 15 else if t.cost ≤ 100 then 12
  else if t.cost ≤ 200 then 8 else 3

/-- `TrainingAgent._get_priority_level`. -/
def _get_priority_level (score : ℚ) : String :=
  if 80 ≤ score then "High" else if 60 ≤ score then "Medium" else "Low"

/-- `TrainingAgent._generate_recommendation_reason` (the `reasons` list grows
through the five checks, then the first three are joined). -/
def _generate_recommendation_reason (training : Program) (missing_skill : String) : String :=
  let reasons : List String := []
  let reasons := if 85 < training.market_demand then
      reasons ++ ["high market demand"] else reasons
  let reasons := if training.certification then
      reasons ++ ["industry-recognized certification"] else reasons
  let reasons := if training.cost = 0 then reasons ++ ["free course"] else reasons
  let reasons := if 4.5 ≤ training.rating then reasons ++ ["highly rated"] else reasons
  let reasons := if (training.skills.map pyLowerStr).contains (pyLowerStr missing_skill) then
      reasons ++ ["directly addresses " ++ missing_skill ++ " skill gap"] else reasons
  let reasons := if reasons.length = 0 then ["relevant to your career goals"] else reasons
  "Recommended due to " ++ String.intercalate ", " (reasons.take 3)

/-- `TrainingAgent._calculate_training_roi` (exact-case comparisons in the
source). -/
def _calculate_training_roi (training : Program) : String :=
  if training.career_impact = "High" ∧ 85 < training.market_demand then "Very High"
  else if training.career_impact = "High" ∨ 75 < training.market_demand then "High"
  else if training.career_impact = "Medium" ∨ 60 < training.market_demand then "Medium"
  else "Low"

/-- `TrainingAgent._find_training_for_skill` (the caller passes the missing
skill already lowered): a program is relevant when the skill is a substring
of one of its lowered skills or vice versa. -/
def _find_training_for_skill (catalog : Catalog) (skill : String) : List Program :=
  (catalogPrograms catalog).filter (fun program =>
    (program.skills.map pyLowerStr).any (fun ps => pyIn skill ps || pyIn ps skill))

/-- One recommendation dictionary, as built in the loop of
`generate_training_recommendations`. -/
structure Recommendation where
  training_id : String
  title : String
  provider : String
  duration_hours : ℕ
  difficulty : String
  cost : ℚ
  certification_available : Bool
  certification_name : String
  skills_covered : List String
  prerequisites : List String
  url : String
  rating : ℚ
  recommendation_score : ℚ
  priority : String
  market_demand : ℚ
  career_impact : String
  reason : String
  estimated_roi : String
deriving DecidableEq, Repr

/-- The recommendation dictionary built for one matched training. -/
def mkRecommendation (training : Program) (current_skills : List PyVal)
    (experience_level : String) (missing_skill : String) : Recommendation :=
  let score := _calculate_recommendation_score training current_skills experience_level
  { training_id := training.id, title := training.title,
    provider := training.provider, duration_hours := training.duration_hours,
    difficulty := training.difficulty, cost := training.cost,
    certification_available := training.certification,
    certification_name := training.cert_name.getD "",
    skills_covered := training.skills, prerequisites := training.prerequisites,
    url := training.url, rating := training.rating,
    recommendation_score := score,
    priority := _get_priority_level score,
    market_demand := training.market_demand,
    career_impact := training.career_impact,
    reason := _generate_recommendation_reason training missing_skill,
    estimated_roi := _calculate_training_roi training }

/-- Stable insertion on an ascending key: `a` goes in front of the first
element whose key is not smaller. Inserting into the sorted list of the
elements that followed `a` keeps equal-keyed elements in list order, which
is CPython's stable-sort guarantee. -/
def insertByKey {α κ : Type} [LinearOrder κ] (key : α → κ) (a : α) :
    List α → List α
  | [] => [a]
  | x :: xs => if key x < key a then x :: insertByKey key a xs else a :: x :: xs

/-- Stable sort on an ascending key, the model of CPython's
`list.sort(key=...)` (a `reverse=True` sort is the ascending sort on the
negated key, with the same tie order). -/
def sortByKey {α κ : Type} [LinearOrder κ] (key : α → κ) : List α → List α
  | [] => []
  | x :: xs => insertByKey key x (sortByKey key xs)

/-- `recommendations.sort(key=lambda x: x["recommendation_score"], reverse=True)`:
a stable descending sort on the score. -/
def sortByScoreDesc (recs : List Recommendation) : List Recommendation :=
  sortByKey (fun r => -r.recommendation_score) recs

/-- One step of a learning-path progression. -/
structure PathStep where
  step : ℕ
  training_id : String
  title : String
  duration_hours : ℕ
  difficulty : String
  certification : Bool
deriving DecidableEq, Repr

/-- One learning path, as built by `_create_learning_paths`. -/
structure LearningPath where
  skill_focus : String
  total_duration_hours : ℕ
  total_cost : ℚ
  progression : List PathStep
deriving DecidableEq, Repr

/-- One `skill_groups[skill].append(rec)` on an insertion-ordered dict
(Python dicts preserve insertion order). -/
def addToGroup (groups : List (String × List Recommendation)) (skill : String)
    (rec : Recommendation) : List (String × List Recommendation) :=
  if groups.any (fun g => g.1 = skill) then
    groups.map (fun g => if g.1 = skill then (g.1, g.2 ++ [rec]) else g)
  else groups ++ [(skill, [rec])]

/-- The grouping loop of `_create_learning_paths`: every covered skill whose
lowering appears among the lowered missing skills buckets the recommendation
under that (original-case) skill. -/
def buildSkillGroups (recommendations : List Recommendation)
    (missing_skills : List String) : List (String × List Recommendation) :=
  recommendations.foldl (fun gs rec =>
    rec.skills_covered.foldl (fun gs' skill =>
      if (missing_skills.map pyLowerStr).contains (pyLowerStr skill) then
        addToGroup gs' skill rec
      else gs') gs) []

/-- `trainings.sort(key=lambda x: {...}.get(x["difficulty"].lower(), 2))`:
a stable ascending sort on difficulty rank. -/
def sortByDifficulty (ts : List Recommendation) : List Recommendation :=
  sortByKey (fun t => difficultyMapGet (pyLowerStr t.difficulty)) ts

/-- `TrainingAgent._create_learning_paths`. -/
def _create_learning_paths (recommendations : List Recommendation)
    (missing_skills : List String) : List LearningPath :=
  let paths := ((buildSkillGroups recommendations missing_skills).filter
      (fun g => 1 < g.2.length)).map (fun g =>
    let trainings := sortByDifficulty g.2
    { skill_focus := g.1,
      total_duration_hours := (trainings.map (fun t => t.duration_hours)).sum,
      total_cost := (trainings.map (fun t => t.cost)).sum,
      progression := trainings.enum.map (fun it =>
        { step := it.1 + 1, training_id := it.2.training_id, title := it.2.title,
          duration_hours := it.2.duration_hours, difficulty := it.2.difficulty,
          certification := it.2.certification_available }) })
  paths.take 3

/-- The result of a public agent operation: either the success dictionary
(`success: True` plus a payload) or the failure dictionary
`{"success": False, "error": e}`. -/
inductive OpResult (α : Type) where
  | ok (value : α)
  | failure (error : String)
deriving DecidableEq, Repr

/-- The `success` field of the returned dictionary. -/
def OpResult.success {α : Type} : OpResult α → Bool
  | .ok _ => true
  | .failure _ => false

/-- The shared `try: ... except Exception as e: return {"success": False,
"error": str(e)}` wrapper of the public operations. -/
def pyTry {α : Type} : Except String α → OpResult α
  | .ok a => .ok a
  | .error e => .failure e

/-- The `consultant_data` dictionary as the agent reads it. Skill lists are
dynamically typed (elements get `.lower()` called on them); the fields for
`generate_skill_development_plan` live in the same dictionary. -/
structure ConsultantData where
  consultant_id : Option Int := Option.none
  skills : List PyVal := []
  missing_skills : List PyVal := []
  experience_level : String := "intermediate"
  career_goals : List String := []
  target_skills : List PyVal := []
  experience_years : Int := 3
  name : Option String := Option.none
deriving Repr

/-- The `summary` dictionary of a recommendation result. -/
structure RecSummary where
  total_recommendations : ℕ
  high_priority : ℕ
  with_certification : ℕ
  estimated_total_hours : ℕ
  estimated_total_cost : ℚ
deriving DecidableEq, Repr

/-- The success payload of `generate_training_recommendations`. -/
structure RecPayload where
  consultant_id : Option Int
  recommendations : List Recommendation
  learning_paths : List LearningPath
  summary : RecSummary
  generated_at : String
deriving DecidableEq, Repr

/-- Reading a whole list of values as strings, stopping at the first
non-string (the shape of every `[... for skill in skills]` comprehension
that calls `.lower()` on the elements). -/
def pyStrList : List PyVal → Except String (List String)
  | [] => .ok []
  | v :: vs =>
    match pyAsStr v with
    | .error e => .error e
    | .ok s =>
      match pyStrList vs with
      | .error e => .error e
      | .ok ss => .ok (s :: ss)

/-- The per-missing-skill loop of `generate_training_recommendations`:
lowering a non-string missing skill raises, ending the loop there (the
recommendations accumulated before the raise are discarded by the
`except` branch, so only the first error is observable). -/
def buildRecommendations (catalog : Catalog) (missing_skills : List PyVal)
    (current_skills : List PyVal) (experience_level : String) :
    Except String (List Recommendation) :=
  match missing_skills with
  | [] => .ok []
  | mv :: rest =>
    match pyAsStr mv with
    | .error e => .error e
    | .ok missing_skill =>
      match buildRecommendations catalog rest current_skills experience_level with
      | .error e => .error e
      | .ok recs =>
        .ok ((_find_training_for_skill catalog (pyLowerStr missing_skill)).map
          (fun t => mkRecommendation t current_skills experience_level missing_skill)
          ++ recs)

/-- The body of `generate_training_recommendations` inside its `try`. `now`
is the `datetime.now().isoformat()` reading taken while building the result.
(`_create_learning_paths` lowers the missing skills again; at that point the
loop above has already established they are all strings.) -/
def generateRecommendationsBody (now : String) (catalog : Catalog)
    (consultant_data : ConsultantData) : Except String RecPayload :=
  match buildRecommendations catalog consultant_data.missing_skills
      consultant_data.skills consultant_data.experience_level with
  | .error e => .error e
  | .ok recommendations =>
  match pyStrList consultant_data.missing_skills with
  | .error e => .error e
  | .ok missingStrs =>
  let recommendations := sortByScoreDesc recommendations
  let learning_paths := _create_learning_paths recommendations missingStrs
  .ok {
    consultant_id := consultant_data.consultant_id,
    recommendations := recommendations.take 10,
    learning_paths := learning_paths,
    summary := {
      total_recommendations := recommendations.length,
      high_priority := (recommendations.filter (fun r => r.priority = "High")).length,
      with_certification :=
        (recommendations.filter (fun r => r.certification_available)).length,
      estimated_total_hours :=
        ((recommendations.take 5).map (fun r => r.duration_hours)).sum,
      estimated_total_cost := ((recommendations.take 5).map (fun r => r.cost)).sum },
    generated_at := now }

/-- `TrainingAgent.generate_training_recommendations`. -/
def generate_training_recommendations (now : String) (catalog : Catalog)
    (consultant_data : ConsultantData) : OpResult RecPayload :=
  pyTry (generateRecommendationsBody now catalog consultant_data)

/-- The `recommendations` list of a result (a failure dictionary has none). -/
def recsOf : OpResult RecPayload → List Recommendation
  | .ok p => p.recommendations
  | .failure _ => []

/-- The `learning_paths` list of a result (a failure dictionary has none). -/
def pathsOf : OpResult RecPayload → List LearningPath
  | .ok p => p.learning_paths
  | .failure _ => []

/-- The `analysis` payload of `analyze_skill_gaps`. -/
structure GapAnalysis where
  total_target_skills : ℕ
  matching_skills : List String
  missing_skills : List String
  coverage_percentage : ℚ
  priority_gaps : List String
  analysis_timestamp : String
deriving DecidableEq, Repr

/-- The body of `TrainingAgent.analyze_skill_gaps` inside its `try`: lowering
and stripping a non-string skill raises there. -/
def analyzeSkillGapsBody (now : String) (consultant_skills target_skills : List PyVal) :
    Except String GapAnalysis :=
  match (pyStrList consultant_skills).map (fun l => l.map (fun s => pyStrip (pyLowerStr s))) with
  | .error e => .error e
  | .ok current_skills_lower =>
  match pyStrList target_skills with
  | .error e => .error e
  | .ok targetStrs =>
  let missing_skills := targetStrs.filter
    (fun t => !(current_skills_lower.contains (pyStrip (pyLowerStr t))))
  let matching_skills := targetStrs.filter
    (fun t => current_skills_lower.contains (pyStrip (pyLowerStr t)))
  let coverage_percentage : ℚ :=
    if targetStrs.isEmpty then 100
    else ((matching_skills.length : ℚ) / (targetStrs.length : ℚ)) * 100
  .ok {
    total_target_skills := targetStrs.length,
    matching_skills := matching_skills,
    missing_skills := missing_skills,
    coverage_percentage := round1 coverage_percentage,
    priority_gaps := missing_skills.take 3,
    analysis_timestamp := now }

/-- `TrainingAgent.analyze_skill_gaps`. -/
def analyze_skill_gaps (now : String) (consultant_skills target_skills : List PyVal) :
    OpResult GapAnalysis :=
  pyTry (analyzeSkillGapsBody now consultant_skills target_skills)

/-- `TrainingAgent._calculate_status`. -/
def _calculate_status (progress_percentage : ℚ) : String :=
  if progress_percentage = 0 then "not_started"
  else if progress_percentage < 25 then "getting_started"
  else if progress_percentage < 50 then "progressing_well"
  else if progress_percentage < 75 then "more_than_halfway"
  else if progress_percentage < 100 then "nearly_complete"
  else "completed"

/-- `TrainingAgent._get_next_milestone`. -/
def _get_next_milestone (progress_percentage : ℚ) : String :=
  if progress_percentage < 25 then "Complete first quarter of course"
  else if progress_percentage < 50 then "Reach halfway point"
  else if progress_percentage < 75 then "Complete three quarters"
  else if progress_percentage < 100 then "Complete final assessments"
  else "Course completed!"

/-- The value of `_estimate_completion_date`: instants are modelled as `ℚ`
seconds, and the `strftime("%Y-%m-%d")` formatting is abstracted to the day
number of the instant (an injective image of the formatted string). -/
inductive CompletionEstimate where
  | completed
  | day (n : ℤ)
deriving DecidableEq, Repr

/-- `TrainingAgent._estimate_completion_date` (`datetime.now()` is the
explicit `nowSec`; 5 study hours per week are assumed by the source). -/
def _estimate_completion_date (nowSec : ℚ) (progress_percentage : ℚ)
    (total_hours : ℚ) : CompletionEstimate :=
  if 100 ≤ progress_percentage then .completed
  else
    let remaining_percentage := 100 - progress_percentage
    let remaining_hours := remaining_percentage / 100 * total_hours
    let weeks_remaining := remaining_hours / 5
    let completion := nowSec + weeks_remaining * 7 * 86400
    .day ((completion / 86400).floor)

/-- The `progress_data` dictionary, with the defaults the source's `.get`
calls supply. -/
structure ProgressData where
  progress_percentage : ℚ := 0
  milestone : String := ""
  time_spent_hours : ℚ := 0
  total_duration_hours : ℚ := 40
deriving Repr

/-- The `progress` payload of `track_training_progress`. -/
structure ProgressPayload where
  enrollment_id : Int
  current_progress : ℚ
  milestone : String
  time_spent_hours : ℚ
  status : String
  updated_at : String
  next_milestone : String
  estimated_completion : CompletionEstimate
deriving DecidableEq, Repr

/-- The body of `TrainingAgent.track_training_progress` inside its `try`. -/
def trackTrainingProgressBody (now : String) (nowSec : ℚ) (enrollment_id : Int)
    (progress_data : ProgressData) : Except String ProgressPayload :=
  .ok { enrollment_id := enrollment_id,
        current_progress := progress_data.progress_percentage,
        milestone := progress_data.milestone,
        time_spent_hours := progress_data.time_spent_hours,
        status := _calculate_status progress_data.progress_percentage,
        updated_at := now,
        next_milestone := _get_next_milestone progress_data.progress_percentage,
        estimated_completion := _estimate_completion_date nowSec
          progress_data.progress_percentage progress_data.total_duration_hours }

/-- `TrainingAgent.track_training_progress`. -/
def track_training_progress (now : String) (nowSec : ℚ) (enrollment_id : Int)
    (progress_data : ProgressData) : OpResult ProgressPayload :=
  pyTry (trackTrainingProgressBody now nowSec enrollment_id progress_data)

/-- `TrainingAgent._assess_current_level`. -/
def _assess_current_level (experience_years : Int) (skill_count : ℕ) : String :=
  if experience_years < 2 ∨ skill_count < 5 then "Beginner"
  else if experience_years < 5 ∨ skill_count < 12 then "Intermediate"
  else "Advanced"

/-- One phase of `_create_development_timeline` (dates as day numbers of the
`ℚ`-seconds instants, as for `CompletionEstimate`). -/
structure TimelinePhase where
  phase : ℕ
  training_title : String
  start_day : ℤ
  end_day : ℤ
  duration_weeks : ℤ
  skills_gained : List String
deriving DecidableEq, Repr

/-- `TrainingAgent._create_development_timeline`: each training starts two
weeks after the previous one and runs `duration_hours / 10` hours;
`duration_weeks` is `round((end - start).days / 7)` with `timedelta.days`
the floor of the second count over 86400. -/
def _create_development_timeline (nowSec : ℚ) (trainings : List Recommendation) :
    List TimelinePhase :=
  trainings.enum.map (fun it =>
    let start := nowSec + (it.1 : ℚ) * 2 * 7 * 86400
    let endT := start + ((it.2.duration_hours : ℚ) / 10) * 3600
    { phase := it.1 + 1, training_title := it.2.title,
      start_day := (start / 86400).floor, end_day := (endT / 86400).floor,
      duration_weeks := pyRoundInt (((((endT - start) / 86400).floor : ℤ) : ℚ) / 7),
      skills_gained := it.2.skills_covered })

/-- One milestone of `_create_milestones`. -/
structure Milestone where
  milestone_id : ℕ
  title : String
  description : String
  target_day : ℤ
  success_criteria : List String
deriving DecidableEq, Repr

/-- `TrainingAgent._create_milestones`. -/
def _create_milestones (nowSec : ℚ) (missing_skills : List String) : List Milestone :=
  (missing_skills.take 5).enum.map (fun it =>
    { milestone_id := it.1 + 1,
      title := "Master " ++ it.2,
      description := "Complete training and demonstrate proficiency in " ++ it.2,
      target_day := ((nowSec + ((it.1 : ℚ) + 1) * 8 * 7 * 86400) / 86400).floor,
      success_criteria := [
        "Complete relevant " ++ it.2 ++ " training course",
        "Pass " ++ it.2 ++ " assessment with 80%+ score",
        "Apply " ++ it.2 ++ " in a real project"] })

/-- `TrainingAgent._define_success_metrics`: only the skill-acquisition
target varies with the input; the other entries are constant strings. -/
structure SuccessMetrics where
  skill_acquisition_target : ℕ
  skill_acquisition_metric : String := "Number of new skills mastered"
  certification_goals_target : String := "2-3 industry certifications"
  project_application_target : String := "Apply skills in real projects"
  market_readiness_target : String := "80%+ skill match for target roles"
deriving DecidableEq, Repr

/-- `TrainingAgent._define_success_metrics`. -/
def _define_success_metrics (target_skills : List PyVal) : SuccessMetrics :=
  { skill_acquisition_target := target_skills.length }

/-- `TrainingAgent._estimate_plan_duration`: `max(3, round(hours/10/4))`. -/
def _estimate_plan_duration (trainings : List Recommendation) : ℤ :=
  let total_hours : ℚ := ((trainings.map (fun t => t.duration_hours)).sum : ℕ)
  let weeks_needed := total_hours / 10
  let months_needed := weeks_needed / 4
  max 3 (pyRoundInt months_needed)

/-- The `development_plan` payload of `generate_skill_development_plan`. -/
structure PlanPayload where
  consultant_id : Option Int
  plan_title : String
  current_level : String
  target_level : String
  skill_gap_analysis : GapAnalysis
  recommended_trainings : List Recommendation
  learning_paths : List LearningPath
  timeline : List TimelinePhase
  milestones : List Milestone
  success_metrics : SuccessMetrics
  estimated_duration_months : ℤ
  total_investment : ℚ
  created_at : String
deriving DecidableEq, Repr

/-- The body of `generate_skill_development_plan` inside its `try`. The two
sub-operations catch their own exceptions; their failure dictionaries are
returned as-is (`if not ...["success"]: return ...`), not raised. -/
def generatePlanBody (now : String) (nowSec : ℚ) (catalog : Catalog)
    (consultant_data : ConsultantData) : Except String (OpResult PlanPayload) :=
  .ok (match analyze_skill_gaps now consultant_data.skills consultant_data.target_skills with
  | .failure e => .failure e
  | .ok gap =>
    match generate_training_recommendations now catalog
        { consultant_data with missing_skills := gap.missing_skills.map PyVal.str } with
    | .failure e => .failure e
    | .ok recs =>
      .ok {
        consultant_id := consultant_data.consultant_id,
        plan_title := "Skill Development Plan for " ++ consultant_data.name.getD "Consultant",
        current_level := _assess_current_level consultant_data.experience_years
          consultant_data.skills.length,
        target_level := "Advanced",
        skill_gap_analysis := gap,
        recommended_trainings := recs.recommendations.take 5,
        learning_paths := recs.learning_paths,
        timeline := _create_development_timeline nowSec (recs.recommendations.take 5),
        milestones := _create_milestones nowSec gap.missing_skills,
        success_metrics := _define_success_metrics consultant_data.target_skills,
        estimated_duration_months := _estimate_plan_duration (recs.recommendations.take 5),
        total_investment := recs.summary.estimated_total_cost,
        created_at := now })

/-- The `try`/`except` wrapper for a body that itself returns a result
dictionary (success or sub-operation failure). -/
def pyTryJoin {α : Type} : Except String (OpResult α) → OpResult α
  | .ok r => r
  | .error e => .failure e

/-- `TrainingAgent.generate_skill_development_plan`. -/
def generate_skill_development_plan (now : String) (nowSec : ℚ) (catalog : Catalog)
    (consultant_data : ConsultantData) : OpResult PlanPayload :=
  pyTryJoin (generatePlanBody now nowSec catalog consultant_data)

/-- Python's `str.title()`: the first alphabetic character of every run is
upper-cased, the following alphabetic characters lower-cased. -/
def pyTitle (s : String) : String :=
  let rec go : List Char → Bool → List Char
    | [], _ => []
    | c :: t, prevAlpha =>
      (if c.isAlpha then (if prevAlpha then c.toLower else c.toUpper) else c)
        :: go t c.isAlpha
  ⟨go s.toList false⟩

/-- One formatted category of `get_training_catalog`. -/
structure CatalogCategory where
  category_name : String
  programs : List Program
  program_count : ℕ
deriving DecidableEq, Repr

/-- The success payload of `get_training_catalog`. -/
structure CatalogPayload where
  catalog : List (String × CatalogCategory)
  total_programs : ℕ
  categories : List String
deriving DecidableEq, Repr

/-- The body of `TrainingAgent.get_training_catalog` inside its `try`:
`"all"` selects the whole catalog, any other category name selects
`{category: self.training_catalog.get(category, [])}`. -/
def getTrainingCatalogBody (training_catalog : Catalog) (category : String) :
    Except String CatalogPayload :=
  let catalog := if category = "all" then training_catalog
    else [(category, ((training_catalog.lookup category).getD []))]
  .ok {
    catalog := catalog.map (fun p =>
      (p.1, { category_name :=
                pyTitle (p.1.map (fun c => if c = '_' then ' ' else c)),
              programs := p.2, program_count := p.2.length })),
    total_programs := (catalog.map (fun p => p.2.length)).sum,
    categories := catalog.map (fun p => p.1) }

/-- `TrainingAgent.get_training_catalog`; its `except` branch prefixes the
exception message. -/
def get_training_catalog (training_catalog : Catalog) (category : String) :
    OpResult CatalogPayload :=
  match getTrainingCatalogBody training_catalog category with
  | .ok v => .ok v
  | .error e => .failure ("Failed to retrieve training catalog: " ++ e)

/-- One public `TrainingAgent` call with its arguments. -/
inductive AgentCall where
  | analyzeGaps (consultant_skills target_skills : List PyVal)
  | generateRecs (data : ConsultantData)
  | trackProgress (enrollment_id : Int) (progress : ProgressData)
  | developPlan (data : ConsultantData)
  | getCatalog (category : String)

/-- The reply of a public call. -/
inductive CallReply where
  | gaps (r : OpResult GapAnalysis)
  | recs (r : OpResult RecPayload)
  | progress (r : OpResult ProgressPayload)
  | plan (r : OpResult PlanPayload)
  | catalogReply (r : OpResult CatalogPayload)

/-- The mutable state of a `TrainingAgent` instance that the claims concern:
`self.training_catalog`. -/
structure AgentState where
  training_catalog : Catalog
deriving DecidableEq

/-- `TrainingAgent.__init__`. -/
def TrainingAgent_init : AgentState :=
  { training_catalog := _initialize_training_catalog }

/-- One public call on the agent, in state-passing form. Each method only
reads `self.training_catalog`: no statement in any of them rebinds it or
mutates a list or dictionary reachable from it (all result dictionaries are
freshly built), so the state after the call is the state before. -/
def agentStep (now : String) (nowSec : ℚ) (s : AgentState) :
    AgentCall → CallReply × AgentState
  | .analyzeGaps cs ts => (.gaps (analyze_skill_gaps now cs ts), s)
  | .generateRecs d => (.recs (generate_training_recommendations now s.training_catalog d), s)
  | .trackProgress eid p => (.progress (track_training_progress now nowSec eid p), s)
  | .developPlan d => (.plan (generate_skill_development_plan now nowSec s.training_catalog d), s)
  | .getCatalog c => (.catalogReply (get_training_catalog s.training_catalog c), s)

/-- Running a sequence of public calls (each with its own clock readings). -/
def runCalls (s : AgentState) : List (String × ℚ × AgentCall) → AgentState
  | [] => s
  | (now, nowSec, c) :: rest => runCalls (agentStep now nowSec s c).2 rest

/-! ### MCP JSON-RPC server shims -/

/-- A JSON-RPC request as the servers read it: `request.get("method")`,
`request.get("params", {}).get("name")`, the `arguments` dictionary (passed
through to the tool methods unexamined by the dispatch, hence a type
parameter), and `request.get("id", 1)`. -/
structure RpcRequest (Args : Type) where
  method : Option String
  params_name : Option String := Option.none
  params_arguments : Args
  id : Option PyVal := Option.none

/-- A JSON-RPC error object. -/
structure RpcError where
  code : Int
  message : String
deriving DecidableEq, Repr

/-- The `result` member a server can produce: the `initialize` payload, the
`tools/list` payload (its tool names), or a `tools/call` content text
(`json.dumps` of the tool's return value). -/
inductive McpResult where
  | initResult (protocolVersion serverName serverVersion : String)
  | toolsList (toolNames : List String)
  | content (text : String)
deriving DecidableEq, Repr

/-- A JSON-RPC response dictionary. -/
structure RpcResponse where
  jsonrpc : String := "2.0"
  id : PyVal
  result : Option McpResult := Option.none
  error : Option RpcError := Option.none
deriving DecidableEq, Repr

/-- An f-string interpolation of an optional string: `None` renders as the
four characters `None`. -/
def pyReprOptStr : Option String → String
  | Option.none => "None"
  | some s => s

/-- `json.dumps({"error": f"Unknown tool: {tool_name}"})`. -/
def unknownToolText (t : String) : String :=
  "\x7b\"error\": \"Unknown tool: " ++ t ++ "\"\x7d"

/-- The inner tool dispatch of the training server's `tools/call` branch:
five recognized tool names invoke the corresponding method, anything else
produces the unknown-tool error dictionary; either way the text is wrapped
in a success response. -/
def trainingToolText {Args : Type} (invoke : String → Args → String)
    (tool_name : Option String) (arguments : Args) : String :=
  if tool_name = some "generate_training_recommendations" then
    invoke "generate_training_recommendations" arguments
  else if tool_name = some "analyze_skill_gaps" then
    invoke "analyze_skill_gaps" arguments
  else if tool_name = some "create_skill_development_plan" then
    invoke "create_skill_development_plan" arguments
  else if tool_name = some "track_training_progress" then
    invoke "track_training_progress" arguments
  else if tool_name = some "get_training_catalog" then
    invoke "get_training_catalog" arguments
  else unknownToolText (pyReprOptStr tool_name)

/-- `ProfessionalTrainingMCPServer.handle_request`
(`professional_training_server_clean.py`), parametric in the tool
implementations (`invoke name args` is the dumped text of the tool call). -/
def trainingHandleRequest {Args : Type} (invoke : String → Args → String)
    (req : RpcRequest Args) : RpcResponse :=
  let request_id := req.id.getD (PyVal.int 1)
  if req.method = some "initialize" then
    { id := request_id,
      result := some (.initResult "2024-11-05" "professional-training-server" "1.0.0") }
  else if req.method = some "tools/list" then
    { id := request_id,
      result := some (.toolsList ["generate_training_recommendations",
        "analyze_skill_gaps", "create_skill_development_plan",
        "track_training_progress", "get_training_catalog"]) }
  else if req.method = some "tools/call" then
    { id := request_id,
      result := some (.content (trainingToolText invoke req.params_name req.params_arguments)) }
  else
    { id := request_id,
      error := some { code := -32601,
                      message := "Unknown method: " ++ pyReprOptStr req.method } }

/-- The inner tool dispatch of the resume analyzer server's `tools/call`
branch. -/
def resumeToolText {Args : Type} (invoke : String → Args → String)
    (tool_name : Option String) (arguments : Args) : String :=
  if tool_name = some "analyze_resume" then invoke "analyze_resume" arguments
  else if tool_name = some "get_capabilities" then invoke "get_capabilities" arguments
  else unknownToolText (pyReprOptStr tool_name)

/-- `ProfessionalResumeAnalyzerServer.handle_request`
(`professional_resume_analyzer_server_jsonrpc.py`): same switch without a
`tools/list` branch. -/
def resumeHandleRequest {Args : Type} (invoke : String → Args → String)
    (req : RpcRequest Args) : RpcResponse :=
  let request_id := req.id.getD (PyVal.int 1)
  if req.method = some "initialize" then
    { id := request_id,
      result := some (.initResult "2024-11-05" "professional-resume-analyzer" "1.0.0") }
  else if req.method = some "tools/call" then
    { id := request_id,
      result := some (.content (resumeToolText invoke req.params_name req.params_arguments)) }
  else
    { id := request_id,
      error := some { code := -32601,
                      message := "Unknown method: " ++ pyReprOptStr req.method } }

/-! ### The consultant-creation endpoint (`simple_backend.py`) -/

/-- The `ConsultantCreate` request model (pydantic-validated payload). -/
structure ConsultantCreate where
  name : String
  email : String
  phone : Option String := Option.none
  location : Option String := Option.none
  experience_years : Int
  department : String
  primary_skill : String
  skills : List String := []
  soft_skills : List String := []
  availability_status : String := "available"
  status : String := "active"
  attendance_rate : ℚ := 100
  training_status : String := "not-started"
deriving DecidableEq, Repr

/-- A stored consultant row, as far as the endpoint's duplicate check reads
`db.get_all_consultants()`. -/
structure StoredConsultant where
  email : String
deriving DecidableEq, Repr

/-- An HTTP reply: a normal JSON response with its status code, or an
`HTTPException` surfaced by the framework as an error response. -/
inductive HttpReply (β : Type) where
  | response (status : ℕ) (body : β)
  | httpError (status : ℕ) (detail : String)
deriving DecidableEq, Repr

/-- The status code of a reply. -/
def HttpReply.statusCode {β : Type} : HttpReply β → ℕ
  | .response s _ => s
  | .httpError s _ => s

/-- The response body of `create_consultant`. -/
structure CreateConsultantBody where
  id : Int
  message : String
  consultant : ConsultantCreate
deriving DecidableEq, Repr

/-- `create_consultant` in `simple_backend.py`. `new_id` stands for the row
id `db.add_consultant` allocates. The route decorator is
`@app.post("/api/consultants")` with no `status_code` argument, so a normal
return is sent with FastAPI's default status code 200. -/
def create_consultant (existing : List StoredConsultant) (new_id : Int)
    (consultant_data : ConsultantCreate) : HttpReply CreateConsultantBody :=
  if existing.any (fun c => c.email = consultant_data.email) then
    .httpError 400 "Email already exists"
  else
    .response 200 { id := new_id, message := "Consultant created successfully",
                    consultant := consultant_data }

/-! ## Theorems -/

/-- Helper: a single public call leaves the agent state unchanged. -/
theorem agentStep_state_eq (now : String) (nowSec : ℚ) (s : AgentState)
    (c : AgentCall) : (agentStep now nowSec s c).2 = s := by
  cases c <;> rfl

/-- Helper: running any call sequence leaves any agent state unchanged. -/
theorem runCalls_state_eq (calls : List (String × ℚ × AgentCall)) :
    ∀ s : AgentState, runCalls s calls = s := by
  induction calls with
  | nil => intro s; rfl
  | cons c rest ih =>
    intro s
    obtain ⟨now, nowSec, call⟩ := c
    calc runCalls s ((now, nowSec, call) :: rest)
        = runCalls (agentStep now nowSec s call).2 rest := rfl
      _ = runCalls s rest := by rw [agentStep_state_eq]
      _ = s := ih s

/-- C6: no public `TrainingAgent` operation modifies `self.training_catalog`;
after any sequence of public calls on a freshly constructed agent the catalog
still equals the static one built by `_initialize_training_catalog`. -/
theorem c6_training_catalog_static :
    ∀ calls : List (String × ℚ × AgentCall),
      (runCalls TrainingAgent_init calls).training_catalog =
        _initialize_training_catalog := by
  intro calls
  rw [runCalls_state_eq calls TrainingAgent_init]
  rfl

/-- C7: every public `TrainingAgent` operation follows the
catch-exception-return-failure-dict policy: whenever its body raises an
exception `e`, the operation returns the failure dictionary
`{"success": False, "error": e}` (for `get_training_catalog` the message is
carried inside the `"Failed to retrieve training catalog: ..."` wrapper)
instead of propagating the exception, with no retry or recovery. -/
theorem c7_catch_exception_return_failure_dict :
    (∀ now cs ts e, analyzeSkillGapsBody now cs ts = .error e →
      analyze_skill_gaps now cs ts = .failure e) ∧
    (∀ now catalog d e, generateRecommendationsBody now catalog d = .error e →
      generate_training_recommendations now catalog d = .failure e) ∧
    (∀ now nowSec eid p e, trackTrainingProgressBody now nowSec eid p = .error e →
      track_training_progress now nowSec eid p = .failure e) ∧
    (∀ now nowSec catalog d e, generatePlanBody now nowSec catalog d = .error e →
      generate_skill_development_plan now nowSec catalog d = .failure e) ∧
    (∀ cat c e, getTrainingCatalogBody cat c = .error e →
      get_training_catalog cat c =
        .failure ("Failed to retrieve training catalog: " ++ e)) := by
  refine ⟨?_, ?_, ?_, ?_, ?_⟩
  · intro now cs ts e h; simp [analyze_skill_gaps, pyTry, h]
  · intro now catalog d e h; simp [generate_training_recommendations, pyTry, h]
  · intro now nowSec eid p e h; simp [track_training_progress, pyTry, h]
  · intro now nowSec catalog d e h
    simp [generate_skill_development_plan, pyTryJoin, h]
  · intro cat c e h; simp [get_training_catalog, h]

/-- C7 witness: a non-string consultant skill makes the body of
`analyze_skill_gaps` raise an `AttributeError`, and the operation returns
the corresponding failure dictionary. -/
theorem c7_catch_exception_return_failure_dict_witness :
    analyze_skill_gaps "2024-01-01T00:00:00" [PyVal.int 3] [] =
      .failure "AttributeError: 'int' object has no attribute 'lower'" :=
  c7_catch_exception_return_failure_dict.1 "2024-01-01T00:00:00"
    [PyVal.int 3] [] "AttributeError: 'int' object has no attribute 'lower'" rfl

/-- C4 counterexample: the result of `generate_training_recommendations`
embeds the wall-clock reading `datetime.now().isoformat()` in its
`generated_at` field, so two calls on equal `consultant_data` made at
different instants return different results. -/
theorem c4_counterexample_generated_at :
    generate_training_recommendations "2024-01-01T00:00:00"
        _initialize_training_catalog {} ≠
      generate_training_recommendations "2024-01-01T00:00:01"
        _initialize_training_catalog {} := by
  decide

/-- Erasing the `generated_at` timestamp of a recommendation result. -/
def stripGeneratedAt : OpResult RecPayload → OpResult RecPayload
  | .ok p => .ok { p with generated_at := "" }
  | .failure e => .failure e

/-- C4 (amended): the scoring pipeline is deterministic apart from the
`generated_at` timestamp: for equal `consultant_data` (and the same
catalog), two calls agree on success, recommendations, learning paths,
summary and consultant id, whatever the two clock readings were. -/
theorem c4_deterministic_up_to_timestamp :
    ∀ (t1 t2 : String) (catalog : Catalog) (data : ConsultantData),
      stripGeneratedAt (generate_training_recommendations t1 catalog data) =
        stripGeneratedAt (generate_training_recommendations t2 catalog data) := by
  intro t1 t2 catalog data
  unfold generate_training_recommendations generateRecommendationsBody pyTry
  cases hb : buildRecommendations catalog data.missing_skills data.skills
      data.experience_level with
  | error e => rfl
  | ok recs =>
    cases hm : pyStrList data.missing_skills with
    | error e => rfl
    | ok strs => rfl

/-- C8: both MCP servers dispatch on a fixed method-name switch: any request
whose method is not among the recognized names gets a JSON-RPC error with
code `-32601` and message `Unknown method: <method>`, and every response
(success or error) carries the request's id, defaulting to `1` when the
request has none. The statement is parametric in the tool implementations. -/
theorem c8_unknown_method_and_id_echo :
    ∀ {Args : Type} (invokeT invokeR : String → Args → String)
      (req : RpcRequest Args),
      (req.method ∉ ([some "initialize", some "tools/list", some "tools/call"] :
          List (Option String)) →
        trainingHandleRequest invokeT req =
          { id := req.id.getD (PyVal.int 1),
            error := some { code := -32601,
                            message := "Unknown method: " ++ pyReprOptStr req.method } }) ∧
      (req.method ∉ ([some "initialize", some "tools/call"] :
          List (Option String)) →
        resumeHandleRequest invokeR req =
          { id := req.id.getD (PyVal.int 1),
            error := some { code := -32601,
                            message := "Unknown method: " ++ pyReprOptStr req.method } }) ∧
      (trainingHandleRequest invokeT req).id = req.id.getD (PyVal.int 1) ∧
      (resumeHandleRequest invokeR req).id = req.id.getD (PyVal.int 1) := by
  intro Args invokeT invokeR req
  refine ⟨?_, ?_, ?_, ?_⟩
  · intro h
    simp only [List.mem_cons, List.mem_singleton, not_or] at h
    obtain ⟨h1, h2, h3, -⟩ := h
    simp [trainingHandleRequest, h1, h2, h3]
  · intro h
    simp only [List.mem_cons, List.mem_singleton, not_or] at h
    obtain ⟨h1, h2, -⟩ := h
    simp [resumeHandleRequest, h1, h2]
  · unfold trainingHandleRequest
    split_ifs <;> rfl
  · unfold resumeHandleRequest
    split_ifs <;> rfl

/-- C8 witness: an unrecognized method on each server yields the `-32601`
error echoing the defaulted id `1`. -/
theorem c8_unknown_method_and_id_echo_witness :
    trainingHandleRequest (fun _ (_ : Unit) => "") { method := some "shutdown", params_arguments := () } =
      { id := PyVal.int 1,
        error := some { code := -32601, message := "Unknown method: shutdown" } } ∧
    resumeHandleRequest (fun _ (_ : Unit) => "") { method := some "tools/list", params_arguments := () } =
      { id := PyVal.int 1,
        error := some { code := -32601, message := "Unknown method: tools/list" } } :=
  ⟨(c8_unknown_method_and_id_echo (fun _ _ => "") (fun _ _ => "")
      { method := some "shutdown", params_arguments := () }).1 (by decide),
   (c8_unknown_method_and_id_echo (fun _ _ => "") (fun _ _ => "")
      { method := some "tools/list", params_arguments := () }).2.1 (by decide)⟩

/-- A concrete valid consultant-creation payload. -/
def samplePayload : ConsultantCreate :=
  { name := "Alice Doe", email := "alice@example.com", experience_years := 5,
    department := "Engineering", primary_skill := "Python" }

/-- C9 counterexample: with no existing consultant carrying the email, the
endpoint responds with status code 200 (the route decorator sets no
`status_code`, so FastAPI's default 200 is used), not 201 as claimed. -/
theorem c9_counterexample_status_200_not_201 :
    (create_consultant [] 1 samplePayload).statusCode = 200 ∧
    ¬ (create_consultant [] 1 samplePayload).statusCode = 201 := by
  decide

/-- C9 (amended): for every payload whose email is not already present the
endpoint responds with status 200 and a body whose consultant carries the
submitted email; a duplicate email fails with HTTP 400. -/
theorem c9_create_consultant_statuses :
    ∀ (existing : List StoredConsultant) (new_id : Int)
      (payload : ConsultantCreate),
      ((∀ c ∈ existing, c.email ≠ payload.email) →
        create_consultant existing new_id payload =
          .response 200 { id := new_id,
                          message := "Consultant created successfully",
                          consultant := payload } ∧
        (create_consultant existing new_id payload).statusCode = 200) ∧
      ((∃ c ∈ existing, c.email = payload.email) →
        create_consultant existing new_id payload =
          .httpError 400 "Email already exists") := by
  intro existing new_id payload
  constructor
  · intro h
    have hno : existing.any (fun c => c.email = payload.email) = false := by
      simp only [List.any_eq_false, decide_eq_true_eq]
      exact h
    constructor
    · simp [create_consultant, hno]
    · simp [create_consultant, hno, HttpReply.statusCode]
  · rintro ⟨c, hc, he⟩
    have hyes : existing.any (fun c => c.email = payload.email) = true :=
      List.any_eq_true.2 ⟨c, hc, by simp [he]⟩
    simp [create_consultant, hyes]

/-- C9 witness: creating `samplePayload` against an empty consultant table
succeeds with status 200 and echoes the payload. -/
theorem c9_create_consultant_statuses_witness :
    create_consultant [] 1 samplePayload =
      .response 200 { id := 1, message := "Consultant created successfully",
                      consultant := samplePayload } :=
  ((c9_create_consultant_statuses [] 1 samplePayload).1 (by simp)).1

/-- Helper: membership after an insertion. -/
theorem mem_insertByKey {α κ : Type} [LinearOrder κ] (key : α → κ) (a y : α) :
    ∀ l : List α, y ∈ insertByKey key a l ↔ y = a ∨ y ∈ l := by
  intro l
  induction l with
  | nil => simp [insertByKey]
  | cons x xs ih =>
    by_cases hlt : key x < key a
    · simp only [insertByKey, if_pos hlt, List.mem_cons, ih]
      tauto
    · simp only [insertByKey, if_neg hlt, List.mem_cons]

/-- Helper: insertion permutes consing. -/
theorem insertByKey_perm {α κ : Type} [LinearOrder κ] (key : α → κ) (a : α) :
    ∀ l : List α, (insertByKey key a l).Perm (a :: l) := by
  intro l
  induction l with
  | nil => simp [insertByKey]
  | cons x xs ih =>
    by_cases hlt : key x < key a
    · simp only [insertByKey, if_pos hlt]
      exact (ih.cons x).trans (List.Perm.swap a x xs)
    · simp [insertByKey, if_neg hlt]

/-- Helper: the stable sort permutes its input. -/
theorem sortByKey_perm {α κ : Type} [LinearOrder κ] (key : α → κ) :
    ∀ l : List α, (sortByKey key l).Perm l := by
  intro l
  induction l with
  | nil => simp [sortByKey]
  | cons x xs ih =>
    simp only [sortByKey]
    exact (insertByKey_perm key x (sortByKey key xs)).trans (ih.cons x)

/-- Helper: insertion preserves ascending-key pairwise order. -/
theorem pairwise_insertByKey {α κ : Type} [LinearOrder κ] (key : α → κ) (a : α) :
    ∀ l : List α, List.Pairwise (fun p q => key p ≤ key q) l →
      List.Pairwise (fun p q => key p ≤ key q) (insertByKey key a l) := by
  intro l
  induction l with
  | nil => intro _; simp [insertByKey]
  | cons x xs ih =>
    intro h
    rw [List.pairwise_cons] at h
    obtain ⟨hx, hxs⟩ := h
    by_cases hlt : key x < key a
    · simp only [insertByKey, if_pos hlt]
      rw [List.pairwise_cons]
      refine ⟨?_, ih hxs⟩
      intro y hy
      rcases (mem_insertByKey key a y xs).1 hy with rfl | hmem
      · exact hlt.le
      · exact hx y hmem
    · simp only [insertByKey, if_neg hlt]
      push_neg at hlt
      rw [List.pairwise_cons]
      refine ⟨?_, List.Pairwise.cons hx hxs⟩
      intro y hy
      rcases List.mem_cons.1 hy with rfl | hmem
      · exact hlt
      · exact le_trans hlt (hx y hmem)

/-- Helper: the stable sort is pairwise ascending on its key. -/
theorem pairwise_sortByKey {α κ : Type} [LinearOrder κ] (key : α → κ) :
    ∀ l : List α, List.Pairwise (fun p q => key p ≤ key q) (sortByKey key l) := by
  intro l
  induction l with
  | nil => simp [sortByKey]
  | cons x xs ih =>
    simp only [sortByKey]
    exact pairwise_insertByKey key x _ ih

/-- C2: on every input, the `recommendations` list of the result of
`generate_training_recommendations` is sorted in non-increasing order of
`recommendation_score` (on a failure dictionary the list is empty). -/
theorem c2_recommendations_sorted_descending :
    ∀ (now : String) (catalog : Catalog) (data : ConsultantData),
      List.Pairwise (fun a b => b.recommendation_score ≤ a.recommendation_score)
        (recsOf (generate_training_recommendations now catalog data)) := by
  intro now catalog data
  unfold generate_training_recommendations generateRecommendationsBody
  cases hb : buildRecommendations catalog data.missing_skills data.skills
      data.experience_level with
  | error e => exact List.Pairwise.nil
  | ok recs =>
    cases hm : pyStrList data.missing_skills with
    | error e => exact List.Pairwise.nil
    | ok strs =>
      show List.Pairwise _ ((sortByScoreDesc recs).take 10)
      have hp := pairwise_sortByKey
        (fun r : Recommendation => -r.recommendation_score) recs
      have hsub : List.Pairwise (fun p q : Recommendation =>
          -p.recommendation_score ≤ -q.recommendation_score)
          ((sortByScoreDesc recs).take 10) :=
        List.Pairwise.sublist (List.take_sublist 10 (sortByScoreDesc recs)) hp
      exact hsub.imp (fun h => neg_le_neg_iff.1 h)

/-- Helper: on an all-string list the recommendation loop collects, skill by
skill, the matched programs' recommendation dictionaries. -/
theorem buildRecommendations_eq_flatMap (catalog : Catalog) (cs : List PyVal)
    (exp : String) :
    ∀ (missing : List PyVal) (strs : List String),
      pyStrList missing = .ok strs →
      buildRecommendations catalog missing cs exp =
        .ok (strs.flatMap (fun s =>
          (_find_training_for_skill catalog (pyLowerStr s)).map
            (fun t => mkRecommendation t cs exp s))) := by
  intro missing
  induction missing with
  | nil =>
    intro strs h
    simp only [pyStrList, Except.ok.injEq] at h
    subst h
    simp [buildRecommendations]
  | cons v rest ih =>
    intro strs h
    cases hv : pyAsStr v with
    | error e => simp [pyStrList, hv] at h
    | ok s =>
      cases hr : pyStrList rest with
      | error e => simp [pyStrList, hv, hr] at h
      | ok ss =>
        simp only [pyStrList, hv, hr, Except.ok.injEq] at h
        subst h
        simp only [buildRecommendations, hv, ih ss hr, List.flatMap_cons]

/-- Helper: a list of string values reads back as exactly those strings. -/
theorem pyStrList_of_strings :
    ∀ l : List PyVal, (∀ v ∈ l, ∃ s, v = PyVal.str s) →
      ∃ strs, pyStrList l = .ok strs ∧ ∀ s ∈ strs, PyVal.str s ∈ l := by
  intro l
  induction l with
  | nil => intro _; exact ⟨[], rfl, by simp⟩
  | cons v vs ih =>
    intro h
    obtain ⟨s, rfl⟩ := h v (List.mem_cons_self v vs)
    obtain ⟨ss, hss, hmem⟩ := ih (fun w hw => h w (List.mem_cons_of_mem _ hw))
    refine ⟨s :: ss, ?_, ?_⟩
    · simp [pyStrList, pyAsStr, hss]
    · intro t ht
      rcases List.mem_cons.1 ht with rfl | hmem'
      · exact List.mem_cons_self _ _
      · exact List.mem_cons_of_mem _ (hmem t hmem')

/-- Helper: a `flatMap` whose pieces are all empty is empty. -/
theorem flatMap_eq_nil_of_all_nil {α β : Type} (l : List α) (f : α → List β)
    (h : ∀ a ∈ l, f a = []) : l.flatMap f = [] := by
  induction l with
  | nil => rfl
  | cons a t ih =>
    rw [List.flatMap_cons, h a (List.mem_cons_self a t), List.nil_append]
    exact ih (fun b hb => h b (List.mem_cons_of_mem _ hb))

/-- C5: on every well-typed input (string skill lists), the operation
succeeds; and when no catalog program matches any missing skill — in
particular against an empty catalog — it still succeeds, with an empty
recommendations list rather than an error. -/
theorem c5_success_on_well_typed_input :
    ∀ (now : String) (catalog : Catalog) (data : ConsultantData),
      (∀ v ∈ data.missing_skills, ∃ s, v = PyVal.str s) →
      (∀ v ∈ data.skills, ∃ s, v = PyVal.str s) →
      (generate_training_recommendations now catalog data).success = true ∧
      ((∀ s, PyVal.str s ∈ data.missing_skills →
          _find_training_for_skill catalog (pyLowerStr s) = []) →
        recsOf (generate_training_recommendations now catalog data) = []) := by
  intro now catalog data hmissing hskills
  obtain ⟨strs, hstrs, hmem⟩ := pyStrList_of_strings data.missing_skills hmissing
  have hbuild := buildRecommendations_eq_flatMap catalog data.skills
    data.experience_level data.missing_skills strs hstrs
  unfold generate_training_recommendations generateRecommendationsBody
  rw [hbuild, hstrs]
  constructor
  · rfl
  · intro hnone
    have hflat : strs.flatMap (fun s =>
        (_find_training_for_skill catalog (pyLowerStr s)).map
          (fun t => mkRecommendation t data.skills data.experience_level s)) = [] :=
      flatMap_eq_nil_of_all_nil strs _ (fun s hs => by
        rw [hnone s (hmem s hs)]; rfl)
    show ((sortByScoreDesc _).take 10) = []
    rw [hflat]
    rfl

/-- C5 witness: against the empty catalog (no program matches anything) a
well-typed request succeeds with an empty recommendations list. -/
theorem c5_success_on_well_typed_input_witness :
    (generate_training_recommendations "2024-01-01T00:00:00" []
      { missing_skills := [PyVal.str "Python"] }).success = true ∧
    recsOf (generate_training_recommendations "2024-01-01T00:00:00" []
      { missing_skills := [PyVal.str "Python"] }) = [] := by
  have h := c5_success_on_well_typed_input "2024-01-01T00:00:00" []
    { missing_skills := [PyVal.str "Python"] }
    (by intro v hv; simp at hv; exact ⟨"Python", hv⟩)
    (by intro v hv; simp at hv)
  exact ⟨h.1, h.2 (by intro s _; rfl)⟩

/-- The `total_recommendations` summary entry of a result. -/
def totalRecommendationsOf : OpResult RecPayload → ℕ
  | .ok p => p.summary.total_recommendations
  | .failure _ => 0

/-- C10: results are truncated — at most 10 recommendations and 3 learning
paths — while the summary is computed over the untruncated candidate list:
`total_recommendations` counts one candidate per (missing skill, matched
program) pair and can exceed 10, and the estimated totals sum over only the
top 5 candidates. -/
theorem c10_truncation_vs_summary :
    ∀ (now : String) (catalog : Catalog) (data : ConsultantData)
      (payload : RecPayload),
      generate_training_recommendations now catalog data = .ok payload →
      payload.recommendations.length ≤ 10 ∧
      payload.learning_paths.length ≤ 3 ∧
      (∀ strs, pyStrList data.missing_skills = .ok strs →
        payload.summary.total_recommendations =
          (strs.map (fun s =>
            (_find_training_for_skill catalog (pyLowerStr s)).length)).sum) ∧
      payload.summary.estimated_total_hours =
        ((payload.recommendations.take 5).map (fun r => r.duration_hours)).sum ∧
      payload.summary.estimated_total_cost =
        ((payload.recommendations.take 5).map (fun r => r.cost)).sum ∧
      (∃ d : ConsultantData, 10 < totalRecommendationsOf
        (generate_training_recommendations now _initialize_training_catalog d)) := by
  intro now catalog data payload h
  unfold generate_training_recommendations generateRecommendationsBody at h
  cases hb : buildRecommendations catalog data.missing_skills data.skills
      data.experience_level with
  | error e => rw [hb] at h; exact absurd h (by simp [pyTry])
  | ok recs =>
    rw [hb] at h
    cases hm : pyStrList data.missing_skills with
    | error e => rw [hm] at h; exact absurd h (by simp [pyTry])
    | ok strs =>
      rw [hm] at h
      simp only [pyTry, OpResult.ok.injEq] at h
      subst h
      refine ⟨List.length_take_le 10 _, ?_, ?_, ?_, ?_, ?_⟩
      · dsimp only
        exact List.length_take_le 3 _
      · intro strs' hstrs'
        simp only [Except.ok.injEq] at hstrs'
        subst hstrs'
        dsimp only
        have hperm : (sortByScoreDesc recs).Perm recs :=
          sortByKey_perm (fun r : Recommendation => -r.recommendation_score) recs
        rw [hperm.length_eq]
        have heq := buildRecommendations_eq_flatMap catalog data.skills
          data.experience_level data.missing_skills strs hm
        rw [heq] at hb
        simp only [Except.ok.injEq] at hb
        subst hb
        rw [List.length_flatMap]
        simp only [Function.comp_def, List.length_map]
      · dsimp only
        rw [List.take_take]
        norm_num
      · dsimp only
        rw [List.take_take]
        norm_num
      · refine ⟨{ missing_skills :=
          [PyVal.str "Python", PyVal.str "MongoDB", PyVal.str "Machine Learning",
           PyVal.str "SQL", PyVal.str "AWS", PyVal.str "React",
           PyVal.str "Azure"] }, ?_⟩
        have hstrs0 : pyStrList [PyVal.str "Python", PyVal.str "MongoDB",
            PyVal.str "Machine Learning", PyVal.str "SQL", PyVal.str "AWS",
            PyVal.str "React", PyVal.str "Azure"] =
            .ok ["Python", "MongoDB", "Machine Learning", "SQL", "AWS",
              "React", "Azure"] := rfl
        unfold generate_training_recommendations generateRecommendationsBody
        dsimp only
        rw [buildRecommendations_eq_flatMap _ _ _ _ _ hstrs0, hstrs0]
        dsimp only [pyTry, totalRecommendationsOf]
        unfold sortByScoreDesc
        rw [(sortByKey_perm (fun r : Recommendation => -r.recommendation_score)
          _).length_eq, List.length_flatMap]
        simp only [Function.comp_def, List.length_map]
        decide

/-- Helper: the sequential score accumulation equals the sum of the five
named factors, rounded to one decimal. -/
theorem score_eq_factors (t : Program) (cs : List PyVal) (exp : String) :
    _calculate_recommendation_score t cs exp =
      round1 (marketDemandFactor t + ratingFactor t + experienceMatchFactor t exp +
        careerImpactFactor t + costEfficiencyFactor t) := by
  unfold _calculate_recommendation_score marketDemandFactor ratingFactor
    experienceMatchFactor careerImpactFactor costEfficiencyFactor
  dsimp only
  congr 1
  have hL : (if (difficultyMapGet (pyLowerStr t.difficulty) -
        expLevelMapGet (pyLowerStr exp)).natAbs = 0 then (20 : ℚ)
      else if (difficultyMapGet (pyLowerStr t.difficulty) -
        expLevelMapGet (pyLowerStr exp)).natAbs = 1 then 15 else 5) =
      (if difficultyMapGet (pyLowerStr t.difficulty) =
        expLevelMapGet (pyLowerStr exp) then (20 : ℚ)
      else if (difficultyMapGet (pyLowerStr t.difficulty) -
        expLevelMapGet (pyLowerStr exp)).natAbs = 1 then 15 else 5) := by
    by_cases h : difficultyMapGet (pyLowerStr t.difficulty) =
      expLevelMapGet (pyLowerStr exp)
    · simp [h]
    · have hne : (difficultyMapGet (pyLowerStr t.difficulty) -
          expLevelMapGet (pyLowerStr exp)).natAbs ≠ 0 := fun hc =>
        h (sub_eq_zero.1 (Int.natAbs_eq_zero.1 hc))
      rw [if_neg hne, if_neg h]
  rw [hL]
  ring

/-- Helper: the experience-level match factor is always 20, 15 or 5. -/
theorem experienceMatchFactor_cases (t : Program) (exp : String) :
    experienceMatchFactor t exp = 20 ∨ experienceMatchFactor t exp = 15 ∨
      experienceMatchFactor t exp = 5 := by
  unfold experienceMatchFactor
  dsimp only
  split_ifs <;> simp

/-- Helper: the experience-level match factor lies between 5 and 20. -/
theorem experienceMatchFactor_bounds (t : Program) (exp : String) :
    5 ≤ experienceMatchFactor t exp ∧ experienceMatchFactor t exp ≤ 20 := by
  unfold experienceMatchFactor
  dsimp only
  split_ifs <;> norm_num

/-- Helper: the career impact factor lies between 5 and 15. -/
theorem careerImpactFactor_bounds (t : Program) :
    5 ≤ careerImpactFactor t ∧ careerImpactFactor t ≤ 15 := by
  unfold careerImpactFactor
  split_ifs <;> norm_num

/-- Helper: the cost efficiency factor lies between 3 and 15. -/
theorem costEfficiencyFactor_bounds (t : Program) :
    3 ≤ costEfficiencyFactor t ∧ costEfficiencyFactor t ≤ 15 := by
  unfold costEfficiencyFactor
  split_ifs <;> norm_num

/-- Helper: rounding to one decimal moves a rational by less than one
tenth. -/
theorem round1_bounds (q : ℚ) : q - 1/10 < round1 q ∧ round1 q ≤ q + 1/10 := by
  have h1 : (⌊10 * q⌋ : ℚ) ≤ 10 * q := Int.floor_le _
  have h2 : 10 * q < ⌊10 * q⌋ + 1 := Int.lt_floor_add_one _
  unfold round1 pyRoundInt
  dsimp only
  split_ifs <;> constructor <;> push_cast <;> linarith

/-- Helper: whenever the market-demand and rating factors together lie in
`[0, 49.9]`, the rounded five-factor score lies in `(0, 100]`. -/
theorem score_bounds_of_base (t : Program) (cs : List PyVal) (exp : String)
    (hb1 : 0 ≤ marketDemandFactor t + ratingFactor t)
    (hb2 : marketDemandFactor t + ratingFactor t ≤ 499/10) :
    0 < _calculate_recommendation_score t cs exp ∧
      _calculate_recommendation_score t cs exp ≤ 100 := by
  rw [score_eq_factors]
  obtain ⟨hL1, hL2⟩ := experienceMatchFactor_bounds t exp
  obtain ⟨hI1, hI2⟩ := careerImpactFactor_bounds t
  obtain ⟨hC1, hC2⟩ := costEfficiencyFactor_bounds t
  obtain ⟨hr1, hr2⟩ := round1_bounds (marketDemandFactor t + ratingFactor t +
    experienceMatchFactor t exp + careerImpactFactor t + costEfficiencyFactor t)
  constructor <;> linarith

/-- C1: for every program of the static catalog and every experience-level
string (and any `current_skills`, which the scorer ignores), the
recommendation score is the sum of the five factors — market demand, rating,
experience-level match, career impact, cost efficiency — rounded to one
decimal place, and it is strictly positive and at most 100. -/
theorem c1_score_five_factors_and_bounds :
    ∀ t ∈ catalogPrograms _initialize_training_catalog,
    ∀ (current_skills : List PyVal) (experience_level : String),
      _calculate_recommendation_score t current_skills experience_level =
        round1 (marketDemandFactor t + ratingFactor t +
          experienceMatchFactor t experience_level +
          careerImpactFactor t + costEfficiencyFactor t) ∧
      0 < _calculate_recommendation_score t current_skills experience_level ∧
      _calculate_recommendation_score t current_skills experience_level ≤ 100 := by
  intro t ht cs exp
  refine ⟨score_eq_factors t cs exp, score_bounds_of_base t cs exp ?_ ?_⟩ <;>
    fin_cases ht <;> norm_num [marketDemandFactor, ratingFactor]

/-- C1 witness: the bounds at the first catalog program and a concrete
experience level. -/
theorem c1_score_five_factors_and_bounds_witness :
    0 < _calculate_recommendation_score
      ((catalogPrograms _initialize_training_catalog).get ⟨0, by decide⟩)
      [] "junior" ∧
    _calculate_recommendation_score
      ((catalogPrograms _initialize_training_catalog).get ⟨0, by decide⟩)
      [] "junior" ≤ 100 :=
  (c1_score_five_factors_and_bounds _ (List.get_mem _ _ _) [] "junior").2

/-- The invariant of the grouping dictionary of `_create_learning_paths`:
every bucket is keyed by a skill whose lowering appears among the lowered
missing skills, and every training in a bucket covers that skill. -/
def GroupsOK (missing_skills : List String)
    (gs : List (String × List Recommendation)) : Prop :=
  ∀ g ∈ gs, ((missing_skills.map pyLowerStr).contains (pyLowerStr g.1) = true) ∧
    ∀ t ∈ g.2, g.1 ∈ t.skills_covered

/-- Helper: appending to a bucket preserves the invariant. -/
theorem groupsOK_addToGroup {missing_skills : List String}
    {gs : List (String × List Recommendation)} {skill : String}
    {rec : Recommendation} (h : GroupsOK missing_skills gs)
    (hskill : (missing_skills.map pyLowerStr).contains (pyLowerStr skill) = true)
    (hcov : skill ∈ rec.skills_covered) :
    GroupsOK missing_skills (addToGroup gs skill rec) := by
  unfold addToGroup
  split_ifs with hany
  · intro g' hg'
    obtain ⟨g, hg, rfl⟩ := List.mem_map.1 hg'
    by_cases he : g.1 = skill
    · rw [if_pos he]
      refine ⟨by rw [he]; exact hskill, ?_⟩
      intro t ht
      rcases List.mem_append.1 ht with hold | hnew
      · exact (h g hg).2 t hold
      · rw [List.mem_singleton.1 hnew, he]
        exact hcov
    · rw [if_neg he]
      exact h g hg
  · intro g' hg'
    rcases List.mem_append.1 hg' with hold | hnew
    · exact h g' hold
    · rw [List.mem_singleton.1 hnew]
      refine ⟨hskill, ?_⟩
      intro t ht
      rw [List.mem_singleton.1 ht]
      exact hcov

/-- Helper: the inner loop over one recommendation's covered skills
preserves the invariant. -/
theorem groupsOK_innerFold (missing_skills : List String) (rec : Recommendation) :
    ∀ (skills : List String), (∀ s ∈ skills, s ∈ rec.skills_covered) →
    ∀ gs, GroupsOK missing_skills gs →
      GroupsOK missing_skills (skills.foldl (fun gs' skill =>
        if (missing_skills.map pyLowerStr).contains (pyLowerStr skill) then
          addToGroup gs' skill rec
        else gs') gs) := by
  intro skills
  induction skills with
  | nil => intro _ gs h; exact h
  | cons s rest ih =>
    intro hsub gs h
    rw [List.foldl_cons]
    refine ih (fun x hx => hsub x (List.mem_cons_of_mem _ hx)) _ ?_
    split_ifs with hc
    · exact groupsOK_addToGroup h hc (hsub s (List.mem_cons_self s rest))
    · exact h

/-- Helper: the grouping loop of `_create_learning_paths` satisfies the
bucket invariant. -/
theorem groupsOK_buildSkillGroups (recommendations : List Recommendation)
    (missing_skills : List String) :
    GroupsOK missing_skills (buildSkillGroups recommendations missing_skills) := by
  unfold buildSkillGroups
  have main : ∀ (recs : List Recommendation) gs, GroupsOK missing_skills gs →
      GroupsOK missing_skills (recs.foldl (fun gs rec =>
        rec.skills_covered.foldl (fun gs' skill =>
          if (missing_skills.map pyLowerStr).contains (pyLowerStr skill) then
            addToGroup gs' skill rec
          else gs') gs) gs) := by
    intro recs
    induction recs with
    | nil => intro gs h; exact h
    | cons r rest ih =>
      intro gs h
      rw [List.foldl_cons]
      exact ih _ (groupsOK_innerFold missing_skills r r.skills_covered
        (fun _ hx => hx) gs h)
  exact main recommendations [] (by intro g hg; cases hg)

/-- C3: every entry of `learning_paths` is a bucket keyed by one shared
skill: its `skill_focus` matches one of the missing skills up to lowering,
it bundles at least two recommended trainings that each cover that skill,
its progression lists exactly those trainings in non-decreasing difficulty
order (unrecognized difficulties ranking as intermediate), and its totals
are the sums of duration and cost over the bucketed trainings. -/
theorem c3_learning_paths_are_skill_buckets :
    ∀ (now : String) (catalog : Catalog) (data : ConsultantData)
      (path : LearningPath),
      path ∈ pathsOf (generate_training_recommendations now catalog data) →
      ∃ (missingStrs : List String) (ts : List Recommendation),
        pyStrList data.missing_skills = .ok missingStrs ∧
        (missingStrs.map pyLowerStr).contains (pyLowerStr path.skill_focus) = true ∧
        2 ≤ ts.length ∧
        (∀ t ∈ ts, path.skill_focus ∈ t.skills_covered) ∧
        path.progression = ts.enum.map (fun it =>
          { step := it.1 + 1, training_id := it.2.training_id,
            title := it.2.title, duration_hours := it.2.duration_hours,
            difficulty := it.2.difficulty,
            certification := it.2.certification_available }) ∧
        2 ≤ path.progression.length ∧
        List.Pairwise (fun a b : PathStep =>
          difficultyMapGet (pyLowerStr a.difficulty) ≤
            difficultyMapGet (pyLowerStr b.difficulty)) path.progression ∧
        path.total_duration_hours = (ts.map (fun t => t.duration_hours)).sum ∧
        path.total_cost = (ts.map (fun t => t.cost)).sum := by
  intro now catalog data path hmem
  unfold generate_training_recommendations generateRecommendationsBody at hmem
  cases hb : buildRecommendations catalog data.missing_skills data.skills
      data.experience_level with
  | error e => rw [hb] at hmem; cases hmem
  | ok recs =>
    rw [hb] at hmem
    cases hm : pyStrList data.missing_skills with
    | error e => rw [hm] at hmem; cases hmem
    | ok strs =>
      rw [hm] at hmem
      refine ⟨strs, ?_⟩
      have hmem' : path ∈ _create_learning_paths (sortByScoreDesc recs) strs := hmem
      unfold _create_learning_paths at hmem'
      have hmem2 := List.mem_of_mem_take hmem'
      obtain ⟨g, hgfilter, rfl⟩ := List.mem_map.1 hmem2
      have hglen : 1 < g.2.length := by
        have := List.of_mem_filter hgfilter
        simpa using this
      have hggroups : g ∈ buildSkillGroups (sortByScoreDesc recs) strs :=
        List.mem_of_mem_filter hgfilter
      obtain ⟨hskill, hcov⟩ := groupsOK_buildSkillGroups (sortByScoreDesc recs)
        strs g hggroups
      have hperm : (sortByDifficulty g.2).Perm g.2 :=
        sortByKey_perm (fun t : Recommendation =>
          difficultyMapGet (pyLowerStr t.difficulty)) g.2
      refine ⟨sortByDifficulty g.2, rfl, hskill, ?_, ?_, rfl, ?_, ?_, rfl, rfl⟩
      · rw [hperm.length_eq]
        exact hglen
      · intro t ht
        exact hcov t (hperm.mem_iff.1 ht)
      · show 2 ≤ ((sortByDifficulty g.2).enum.map _).length
        rw [List.length_map, List.enum_length, hperm.length_eq]
        exact hglen
      · show List.Pairwise _ ((sortByDifficulty g.2).enum.map _)
        have hsorted := pairwise_sortByKey (fun t : Recommendation =>
          difficultyMapGet (pyLowerStr t.difficulty)) g.2
        have h1 : List.Pairwise (fun p q : Recommendation =>
            difficultyMapGet (pyLowerStr p.difficulty) ≤
              difficultyMapGet (pyLowerStr q.difficulty))
            (List.map Prod.snd (sortByDifficulty g.2).enum) := by
          rw [List.enum_map_snd]
          exact hsorted
        have h2 := List.pairwise_map.1 h1
        rw [List.pairwise_map]
        exact h2.imp (fun h => h)

/-- A sample catalog program for exercising the learning-path bucketing. -/
def c3ProgA : Program :=
  { id := "a", title := "A", provider := "p", duration_hours := 10,
    difficulty := "Beginner", cost := 0, certification := false,
    skills := ["X"], prerequisites := [], market_demand := 100,
    career_impact := "High", url := "u", rating := 5 }

/-- A second sample program covering the same skill at a higher level. -/
def c3ProgB : Program :=
  { id := "b", title := "B", provider := "p", duration_hours := 20,
    difficulty := "Advanced", cost := 300, certification := false,
    skills := ["X"], prerequisites := [], market_demand := 0,
    career_impact := "Low", url := "u", rating := 0 }

/-- A two-program sample catalog sharing the skill `X`. -/
def c3SampleCatalog : Catalog := [("c", [c3ProgA, c3ProgB])]

/-- The learning path the sample catalog produces for missing skill `X`. -/
def c3SamplePath : LearningPath :=
  { skill_focus := "X", total_duration_hours := 30, total_cost := 300,
    progression :=
      [{ step := 1, training_id := "a", title := "A", duration_hours := 10,
         difficulty := "Beginner", certification := false },
       { step := 2, training_id := "b", title := "B", duration_hours := 20,
         difficulty := "Advanced", certification := false }] }

/-- C3 witness: on the sample catalog with missing skill `X`, the produced
learning path is a two-step bucket for `X` with the claimed structure. -/
theorem c3_learning_paths_are_skill_buckets_witness :
    ∃ (missingStrs : List String) (ts : List Recommendation),
      pyStrList [PyVal.str "X"] = .ok missingStrs ∧
      (missingStrs.map pyLowerStr).contains (pyLowerStr c3SamplePath.skill_focus) = true ∧
      2 ≤ ts.length ∧
      (∀ t ∈ ts, c3SamplePath.skill_focus ∈ t.skills_covered) ∧
      c3SamplePath.progression = ts.enum.map (fun it =>
        { step := it.1 + 1, training_id := it.2.training_id,
          title := it.2.title, duration_hours := it.2.duration_hours,
          difficulty := it.2.difficulty,
          certification := it.2.certification_available }) ∧
      2 ≤ c3SamplePath.progression.length ∧
      List.Pairwise (fun a b : PathStep =>
        difficultyMapGet (pyLowerStr a.difficulty) ≤
          difficultyMapGet (pyLowerStr b.difficulty)) c3SamplePath.progression ∧
      c3SamplePath.total_duration_hours = (ts.map (fun t => t.duration_hours)).sum ∧
      c3SamplePath.total_cost = (ts.map (fun t => t.cost)).sum := by
  have hs1 : (mkRecommendation c3ProgA [] "intermediate" "X").recommendation_score = 95 := by
    unfold mkRecommendation c3ProgA _calculate_recommendation_score
    dsimp only
    simp only [show pyLowerStr "Beginner" = "beginner" from rfl,
      show pyLowerStr "intermediate" = "intermediate" from rfl,
      show pyLowerStr "High" = "high" from rfl]
    simp [difficultyMapGet, expLevelMapGet]
    norm_num [round1, pyRoundInt]
  have hs2 : (mkRecommendation c3ProgB [] "intermediate" "X").recommendation_score = 23 := by
    unfold mkRecommendation c3ProgB _calculate_recommendation_score
    dsimp only
    simp only [show pyLowerStr "Advanced" = "advanced" from rfl,
      show pyLowerStr "intermediate" = "intermediate" from rfl,
      show pyLowerStr "Low" = "low" from rfl]
    simp [difficultyMapGet, expLevelMapGet]
    norm_num [round1, pyRoundInt]
  have hb : buildRecommendations c3SampleCatalog [PyVal.str "X"] [] "intermediate" =
      .ok [mkRecommendation c3ProgA [] "intermediate" "X",
           mkRecommendation c3ProgB [] "intermediate" "X"] := rfl
  have hsort : sortByScoreDesc [mkRecommendation c3ProgA [] "intermediate" "X",
      mkRecommendation c3ProgB [] "intermediate" "X"] =
      [mkRecommendation c3ProgA [] "intermediate" "X",
       mkRecommendation c3ProgB [] "intermediate" "X"] := by
    unfold sortByScoreDesc
    simp only [sortByKey, insertByKey]
    rw [if_neg]
    rw [hs1, hs2]
    norm_num
  have hgroups : buildSkillGroups [mkRecommendation c3ProgA [] "intermediate" "X",
      mkRecommendation c3ProgB [] "intermediate" "X"] ["X"] =
      [("X", [mkRecommendation c3ProgA [] "intermediate" "X",
              mkRecommendation c3ProgB [] "intermediate" "X"])] := rfl
  have hsortd : sortByDifficulty [mkRecommendation c3ProgA [] "intermediate" "X",
      mkRecommendation c3ProgB [] "intermediate" "X"] =
      [mkRecommendation c3ProgA [] "intermediate" "X",
       mkRecommendation c3ProgB [] "intermediate" "X"] := rfl
  have hpaths : _create_learning_paths
      [mkRecommendation c3ProgA [] "intermediate" "X",
       mkRecommendation c3ProgB [] "intermediate" "X"] ["X"] = [c3SamplePath] := by
    unfold _create_learning_paths
    rw [hgroups]
    simp only [List.filter, List.map, List.take, hsortd]
    simp [c3SamplePath, mkRecommendation, c3ProgA, c3ProgB]
  have hmem : c3SamplePath ∈ pathsOf (generate_training_recommendations "t"
      c3SampleCatalog { missing_skills := [PyVal.str "X"] }) := by
    unfold generate_training_recommendations generateRecommendationsBody
    rw [hb]
    rw [show pyStrList [PyVal.str "X"] = .ok ["X"] from rfl]
    show c3SamplePath ∈ _create_learning_paths (sortByScoreDesc _) ["X"]
    rw [hsort, hpaths]
    exact List.mem_singleton.2 rfl
  exact c3_learning_paths_are_skill_buckets "t" c3SampleCatalog
    { missing_skills := [PyVal.str "X"] } c3SamplePath hmem

/-- The result payload of a request with no missing skills. -/
def emptyRecPayload : RecPayload :=
  { consultant_id := Option.none, recommendations := [], learning_paths := [],
    summary := { total_recommendations := 0, high_priority := 0,
                 with_certification := 0, estimated_total_hours := 0,
                 estimated_total_cost := 0 },
    generated_at := "2024-01-01T00:00:00" }

/-- C10 witness: a successful empty run satisfies the truncation bounds and
the summary formula. -/
theorem c10_truncation_vs_summary_witness :
    generate_training_recommendations "2024-01-01T00:00:00" [] {} =
      OpResult.ok emptyRecPayload ∧
    emptyRecPayload.recommendations.length ≤ 10 ∧
    emptyRecPayload.learning_paths.length ≤ 3 ∧
    emptyRecPayload.summary.total_recommendations =
      (([] : List String).map (fun s =>
        (_find_training_for_skill [] (pyLowerStr s)).length)).sum :=
  ⟨rfl,
   (c10_truncation_vs_summary "2024-01-01T00:00:00" [] {} emptyRecPayload rfl).1,
   (c10_truncation_vs_summary "2024-01-01T00:00:00" [] {} emptyRecPayload rfl).2.1,
   (c10_truncation_vs_summary "2024-01-01T00:00:00" [] {} emptyRecPayload rfl).2.2.1 [] rfl⟩

end BenchSync
